import Mathlib

/-!
gungnir: process lifecycle of the device-history API server.

A shallow embedding of `gungnir` (main.go).  The function is a straight line of
calls into external packages followed by a signal loop, so the embedding makes
every external answer an explicit input (`Env`) and every observable step an
entry of an explicit trace (`Action`).  The value `gungnir` returns is the
process exit code (`main` passes it to `os.Exit`).

Conventions
* Go `error` values are `Option GoError` (`none` is `nil`).
* `int` and `time.Duration` are `Int`.
* `os.Signal` values are signal numbers; `os.Interrupt` is 2 and `os.Kill` is 9.
* The `select` of the Running loop receives the events of `Env.events` in the
  order in which the runtime hands them over; when the list is used up no
  further event ever arrives and the `select` blocks for ever.
* Calls into external packages return, except `waitGroup.Wait()`, which
  returns only if the services finish (`Env.waitReturns`).
-/

namespace Gungnir

/-! ## Constants (main.go, lines 41-45) -/

def applicationName : String := "gungnir"

def apiBase : String := "/api/v1"

def DEFAULT_KEY_ID : String := "current"

def applicationVersion : String := "0.0.0"

/-! ## Data model -/

/-- A Go `error` value that is not `nil`, identified by a number. -/
structure GoError where
  id : Nat
deriving DecidableEq, Repr

/-- An `os.Signal`: the signal number. -/
abbrev Signal := Nat

/-- The signal `os.Interrupt` (SIGINT). -/
def osInterrupt : Signal := 2

/-- The signal `os.Kill` (SIGKILL). -/
def osKill : Signal := 9

/-- The value of type `db.Config` (connection parameters, external). -/
structure DbConfig where
  id : Nat
deriving DecidableEq, Repr

/-- The connection returned by `db.CreateDbConnection` (external). -/
structure Database where
  id : Nat
deriving DecidableEq, Repr

/-- The struct `Config` (main.go, lines 47-51). -/
structure Config where
  Db : DbConfig
  GetRetries : Int
  RetryInterval : Int
deriving DecidableEq, Repr

/-- What one `select` of the Running loop can receive: a value from `signals`
or the notification on `done`. -/
inductive Event where
  | signal (s : Signal)
  | done
deriving DecidableEq, Repr

/-- The value returned by `db.CreateRetryHGService` / `db.CreateRetryTGService`:
the constructor records the arguments of the call. -/
inductive Getter where
  | retryHG (database : Database) (retries : Int) (interval : Int)
  | retryTG (database : Database) (retries : Int) (interval : Int)
deriving DecidableEq, Repr

/-- The struct `App` as built at main.go lines 125-129 (the logger is left out). -/
structure App where
  historyGetter : Getter
  tombstoneGetter : Getter
deriving DecidableEq, Repr

/-- The texts written to standard error, with the error they print. -/
inductive StderrMsg where
  | failedToParseArguments (err : GoError)
  | unableToInitializeViper (err : GoError)
  | validatorError (err : GoError)
  | databaseInitializeFailed (err : GoError)
  | unableToStartDeviceManager (err : GoError)
deriving DecidableEq, Repr

/-- The messages handed to the logger. -/
inductive LogMsg where
  | loadedConfigFile
  | failedToInitializeDatabase (err : GoError)
  | upAndRunning
  | ignoringSignal (s : Signal)
  | exitingDueToSignal (s : Signal)
  | serversExited
deriving DecidableEq, Repr

/-- The observable steps of `gungnir`, in the order of the source: the calls
that can fail or block, the output and the log entries.  Building the handler
chain and the router (lines 113-123) and reading the clock leave no step. -/
inductive Action where
  | serverInitialize
  | flagParse
  | stderr (m : StderrMsg)
  | println (s : String)
  | logInfo (m : LogMsg)
  | logError (m : LogMsg)
  | unmarshal
  | createDbConnection (c : DbConfig)
  | createRetryHGService (database : Database) (retries : Int) (interval : Int)
  | createRetryTGService (database : Database) (retries : Int) (interval : Int)
  | routerHandle (path : String) (app : App)
  | prepare
  | concurrentExecute
  | signalNotify
  | recv (e : Event)
  | closeShutdown
  | waitGroupWait
deriving DecidableEq, Repr

/-- The answers of the world to one execution of `gungnir`. -/
structure Env where
  /-- The `err` returned by `server.Initialize`. -/
  initErr : Option GoError
  /-- The error returned by `f.Parse(arguments)`. -/
  parseErr : Option GoError
  /-- The value of `*printVer` once the arguments are parsed. -/
  printVer : Bool
  /-- The contents of `config` after `v.Unmarshal(config)`. -/
  config : Config
  /-- The function `db.CreateDbConnection`. -/
  CreateDbConnection : DbConfig → Except GoError Database
  /-- The `err` returned by `concurrent.Execute(runnable)`. -/
  executeErr : Option GoError
  /-- The events the `select` receives, in order. -/
  events : List Event
  /-- Whether `waitGroup.Wait()` returns. -/
  waitReturns : Bool

/-- The result of one execution: the steps taken, the value returned (`none`
when the function never returns) and the events that were never received. -/
structure Outcome where
  trace : List Action
  exit : Option Int
  pending : List Event
deriving DecidableEq, Repr

/-! ## The Running loop (main.go, lines 146-159) -/

/-- One pass through the `select`: the new value of `exit` and the steps taken. -/
def selectBody : Event → Bool × List Action
  | Event.signal s =>
    if s ≠ osKill ∧ s ≠ osInterrupt then
      (false, [Action.recv (Event.signal s), Action.logInfo (LogMsg.ignoringSignal s)])
    else
      (true, [Action.recv (Event.signal s), Action.logError (LogMsg.exitingDueToSignal s)])
  | Event.done =>
    (true, [Action.recv Event.done, Action.logError LogMsg.serversExited])

/-- The state in which the loop `for exit := false; !exit; { select ... }` is
left: the steps taken, whether the loop ended, the events not received. -/
structure LoopResult where
  trace : List Action
  ended : Bool
  pending : List Event
deriving DecidableEq, Repr

/-- The loop `for exit := false; !exit; { select { ... } }`, started with the
given value of `exit`. -/
def forLoop : Bool → List Event → LoopResult
  | true, events => ⟨[], true, events⟩
  | false, [] => ⟨[], false, []⟩
  | false, e :: rest =>
    let r := forLoop (selectBody e).1 rest
    ⟨(selectBody e).2 ++ r.trace, r.ended, r.pending⟩

/-! ## gungnir (main.go, lines 53-164) -/

/-- The function `gungnir`. -/
def gungnir (env : Env) : Outcome :=
  let err := env.initErr
  let t1 := [Action.serverInitialize, Action.flagParse]
  match env.parseErr with
  | some e => ⟨t1 ++ [Action.stderr (StderrMsg.failedToParseArguments e)], some 1, env.events⟩
  | none =>
    if env.printVer then
      ⟨t1 ++ [Action.println applicationVersion], some 0, env.events⟩
    else
      match err with
      | some e => ⟨t1 ++ [Action.stderr (StderrMsg.unableToInitializeViper e)], some 1, env.events⟩
      | none =>
        let t2 := t1 ++ [Action.logInfo LogMsg.loadedConfigFile]
        match err with
        | some e => ⟨t2 ++ [Action.stderr (StderrMsg.validatorError e)], some 1, env.events⟩
        | none =>
          let config := env.config
          let dbConfig := config.Db
          let t3 := t2 ++ [Action.unmarshal, Action.createDbConnection dbConfig]
          match env.CreateDbConnection dbConfig with
          | Except.error e =>
            ⟨t3 ++ [Action.logError (LogMsg.failedToInitializeDatabase e),
                    Action.stderr (StderrMsg.databaseInitializeFailed e)], some 2, env.events⟩
          | Except.ok database =>
            let hg := Getter.retryHG database config.GetRetries config.RetryInterval
            let tg := Getter.retryTG database config.GetRetries config.RetryInterval
            let app : App := ⟨hg, tg⟩
            let t4 := t3 ++
              [Action.createRetryHGService database config.GetRetries config.RetryInterval,
               Action.createRetryTGService database config.GetRetries config.RetryInterval,
               Action.routerHandle (apiBase ++ "/device/\x7bdeviceID\x7d") app,
               Action.prepare,
               Action.concurrentExecute]
            match env.executeErr with
            | some e =>
              ⟨t4 ++ [Action.stderr (StderrMsg.unableToStartDeviceManager e)], some 1, env.events⟩
            | none =>
              let t5 := t4 ++ [Action.logInfo LogMsg.upAndRunning, Action.signalNotify]
              let r := forLoop false env.events
              if r.ended then
                let t6 := t5 ++ r.trace ++ [Action.closeShutdown, Action.waitGroupWait]
                if env.waitReturns then ⟨t6, some 0, r.pending⟩ else ⟨t6, none, r.pending⟩
              else
                ⟨t5 ++ r.trace, none, r.pending⟩

/-! ## The retry-wrapped accessor

`db.CreateRetryHGService` and `db.CreateRetryTGService` belong to package
`db`, whose source is not part of main.go; `gungnir` only calls them.  Their
`Get` is taken from sections 3 and 4.1 of the specification. -/

/-- Modelled from the spec: the RetryPolicy of section 3, a non-negative number
of retries and a non-negative interval (the body of package `db` is missing). -/
structure RetryPolicy where
  maxAttempts : Nat
  interval : Nat
deriving DecidableEq, Repr

/-- A record returned by the underlying source (its contents are opaque). -/
structure Record where
  id : Nat
deriving DecidableEq, Repr

/-- Modelled from the spec: the errors `Get` returns according to section 4.1
(package `db` is missing): a validation error, a non-transient cause returned
as it is, or a wrapped error carrying the last cause and the attempts made. -/
inductive GetError where
  | validation
  | nonTransient (cause : GoError)
  | exhausted (cause : GoError) (attempts : Nat)
deriving DecidableEq, Repr

/-- What one `Get` did: its result, the calls made to the underlying source and
the time spent waiting between attempts. -/
structure GetOutcome where
  result : Except GetError (List Record)
  calls : Nat
  waited : Nat

/-- Modelled from the spec: a retry-wrapped accessor of section 4.1 (the type
returned by `db.CreateRetryHGService` is missing): its policy, the pluggable
classification of errors and the check of a device identifier's syntax. -/
structure RetryGetter where
  policy : RetryPolicy
  isTransient : GoError → Bool
  wellFormed : String → Bool

/-- Modelled from the spec: the attempts of one `Get` (section 4.1; the retry
loop of package `db` is missing).  `source k` is the answer of the underlying
accessor to call number `k`; `left` retries remain, `made` calls were made.  A
success is returned as it is, a non-transient error at once; a transient error
is followed by a wait of `interval` and a retry while retries remain, and by the
wrapped error when none remains. -/
def retryFrom (isTransient : GoError → Bool) (interval : Nat)
    (source : Nat → Except GoError (List Record)) : Nat → Nat → Nat → GetOutcome
  | left, made, waited =>
    match source made with
    | Except.ok records => ⟨Except.ok records, made + 1, waited⟩
    | Except.error e =>
      if isTransient e then
        match left with
        | 0 => ⟨Except.error (GetError.exhausted e (made + 1)), made + 1, waited⟩
        | left + 1 => retryFrom isTransient interval source left (made + 1) (waited + interval)
      else
        ⟨Except.error (GetError.nonTransient e), made + 1, waited⟩

/-- Modelled from the spec: `Get(deviceID)` of section 4.1 (the method of
package `db` is missing): an empty or malformed identifier is rejected before
any attempt, every other one is looked up with up to `maxAttempts` retries. -/
def RetryGetter.Get (g : RetryGetter) (deviceID : String)
    (source : Nat → Except GoError (List Record)) : GetOutcome :=
  if deviceID = "" ∨ g.wellFormed deviceID = false then
    ⟨Except.error GetError.validation, 0, 0⟩
  else
    retryFrom g.isTransient g.policy.interval source g.policy.maxAttempts 0 0

/-- The underlying call failed. -/
def failed : Except GoError (List Record) → Bool
  | Except.ok _ => false
  | Except.error _ => true

/-- The underlying call failed with an error the accessor counts as transient. -/
def failedTransiently (g : RetryGetter) : Except GoError (List Record) → Bool
  | Except.ok _ => false
  | Except.error e => g.isTransient e

/-- How many of the underlying calls made by a `Get` failed.  The calls a `Get`
makes are the calls number 0 to `calls - 1` of the source, in this order. -/
def GetOutcome.failedCalls (o : GetOutcome) (source : Nat → Except GoError (List Record)) : Nat :=
  (List.range o.calls).countP fun k => failed (source k)

/-! ## Vocabulary of the properties -/

/-- The events that end the Running loop according to the specification: the
done notification, `os.Interrupt` and `os.Kill`. -/
def Event.isTerminating : Event → Bool
  | Event.done => true
  | Event.signal s => s == osInterrupt || s == osKill

/-- The conditions under which the services are started, that is under which
`concurrent.Execute` has returned without error (main.go line 143 is reached). -/
def Env.startsServices (env : Env) : Bool :=
  env.parseErr.isNone && !env.printVer && env.initErr.isNone &&
  (match env.CreateDbConnection env.config.Db with
   | Except.ok _ => true
   | Except.error _ => false) &&
  env.executeErr.isNone

/-- What an ignored signal leaves in the trace: its receipt and one log entry. -/
def ignoredSteps (s : Signal) : List Action :=
  [Action.recv (Event.signal s), Action.logInfo (LogMsg.ignoringSignal s)]

/-- What the event that ends the loop leaves in the trace. -/
def endingSteps : Event → List Action
  | Event.signal s => [Action.recv (Event.signal s), Action.logError (LogMsg.exitingDueToSignal s)]
  | Event.done => [Action.recv Event.done, Action.logError LogMsg.serversExited]

/-- The steps taken inside the Running loop: receipts and log entries. -/
def Action.isLoopStep : Action → Bool
  | Action.recv _ => true
  | Action.logInfo (LogMsg.ignoringSignal _) => true
  | Action.logError (LogMsg.exitingDueToSignal _) => true
  | Action.logError LogMsg.serversExited => true
  | _ => false

/-- Calls of `db.CreateDbConnection`. -/
def Action.isCreateDbConnection : Action → Bool
  | Action.createDbConnection _ => true
  | _ => false

/-- The steps that belong to a started server: building the retry accessors,
registering the route, preparing and starting the services, subscribing to
signals, receiving events, closing the shutdown channel and waiting. -/
def Action.isServing : Action → Bool
  | Action.createRetryHGService _ _ _ => true
  | Action.createRetryTGService _ _ _ => true
  | Action.routerHandle _ _ => true
  | Action.prepare => true
  | Action.concurrentExecute => true
  | Action.signalNotify => true
  | Action.recv _ => true
  | Action.closeShutdown => true
  | Action.waitGroupWait => true
  | _ => false

/-- The steps that build the accessors and install them: the two constructor
calls and the registration of the route. -/
def Action.isAccessorStep : Action → Bool
  | Action.createRetryHGService _ _ _ => true
  | Action.createRetryTGService _ _ _ => true
  | Action.routerHandle _ _ => true
  | _ => false

/-- The steps of an execution from its start to the call of
`concurrent.Execute`, for the connection `d` (main.go lines 56-137). -/
def startSteps (config : Config) (d : Database) : List Action :=
  [Action.serverInitialize, Action.flagParse, Action.logInfo LogMsg.loadedConfigFile,
   Action.unmarshal, Action.createDbConnection config.Db,
   Action.createRetryHGService d config.GetRetries config.RetryInterval,
   Action.createRetryTGService d config.GetRetries config.RetryInterval,
   Action.routerHandle "/api/v1/device/\x7bdeviceID\x7d"
     ⟨Getter.retryHG d config.GetRetries config.RetryInterval,
      Getter.retryTG d config.GetRetries config.RetryInterval⟩,
   Action.prepare, Action.concurrentExecute]

/-- The startup stages the specification distinguishes by exit code. -/
inductive Stage where
  | configLoad
  | validatorInit
  | databaseConnect
  | serviceStart
deriving DecidableEq, Repr

/-- The stage a message on standard error reports as failed.  Malformed
arguments and an unreadable configuration are both configuration errors. -/
def StderrMsg.stage : StderrMsg → Stage
  | StderrMsg.failedToParseArguments _ => Stage.configLoad
  | StderrMsg.unableToInitializeViper _ => Stage.configLoad
  | StderrMsg.validatorError _ => Stage.validatorInit
  | StderrMsg.databaseInitializeFailed _ => Stage.databaseConnect
  | StderrMsg.unableToStartDeviceManager _ => Stage.serviceStart

/-- The execution reported a failure of the given stage. -/
def Outcome.failedAt (o : Outcome) (st : Stage) : Bool :=
  o.trace.any fun a =>
    match a with
    | Action.stderr m => decide (m.stage = st)
    | _ => false

/-! ## Sample inputs -/

/-- A database that accepts every configuration. -/
def dbUp : DbConfig → Except GoError Database :=
  fun c => Except.ok ⟨c.id⟩

/-- A database that refuses every configuration. -/
def dbDown : DbConfig → Except GoError Database :=
  fun _ => Except.error ⟨53⟩

/-- A configuration with three retries, 100 apart. -/
def sampleConfig : Config :=
  { Db := ⟨7⟩, GetRetries := 3, RetryInterval := 100 }

/-- An execution in which every startup stage succeeds. -/
def envUp (events : List Event) : Env :=
  { initErr := none, parseErr := none, printVer := false, config := sampleConfig,
    CreateDbConnection := dbUp, executeErr := none, events := events, waitReturns := true }

/-- An execution in which `server.Initialize` reports an error. -/
def envInitFails : Env :=
  { envUp [] with initErr := some ⟨11⟩ }

/-- An execution in which the database connection cannot be made. -/
def envDbFails : Env :=
  { envUp [Event.signal 1, Event.done] with CreateDbConnection := dbDown }

/-- An execution in which `concurrent.Execute` reports an error. -/
def envExecuteFails : Env :=
  { envUp [] with executeErr := some ⟨12⟩ }

/-- An execution asked for its version, with an unknown-flag error already
reported by `server.Initialize`. -/
def envVersion : Env :=
  { envUp [Event.done] with printVer := true, initErr := some ⟨13⟩ }

theorem selectBody_exit (e : Event) : (selectBody e).1 = e.isTerminating := by
  cases e with
  | done => rfl
  | signal s =>
    by_cases h1 : s = osKill
    · simp [selectBody, Event.isTerminating, h1]
    · by_cases h2 : s = osInterrupt
      · simp [selectBody, Event.isTerminating, h2]
      · simp [selectBody, Event.isTerminating, h1, h2]

theorem selectBody_steps_loop (e : Event) : ∀ a ∈ (selectBody e).2, a.isLoopStep = true := by
  cases e with
  | done => simp [selectBody, Action.isLoopStep]
  | signal s =>
    by_cases h : s ≠ osKill ∧ s ≠ osInterrupt
    · simp [selectBody, h, Action.isLoopStep]
    · simp [selectBody, h, Action.isLoopStep]

theorem forLoop_steps_loop (b : Bool) (events : List Event) :
    ∀ a ∈ (forLoop b events).trace, a.isLoopStep = true := by
  induction events generalizing b with
  | nil => cases b <;> simp [forLoop]
  | cons e rest ih =>
    cases b with
    | true => simp [forLoop]
    | false =>
      intro a ha
      simp only [forLoop, List.mem_append] at ha
      rcases ha with ha | ha
      · exact selectBody_steps_loop e a ha
      · exact ih _ a ha

theorem forLoop_ended (events : List Event) :
    (forLoop false events).ended = events.any Event.isTerminating := by
  induction events with
  | nil => rfl
  | cons e rest ih =>
    simp only [forLoop, List.any_cons, selectBody_exit]
    cases h : e.isTerminating with
    | true => simp [forLoop]
    | false => simpa using ih

theorem forLoop_ignored (sigs : List Signal) (rest : List Event)
    (h : ∀ s ∈ sigs, s ≠ osInterrupt ∧ s ≠ osKill) :
    forLoop false (sigs.map Event.signal ++ rest) =
      ⟨sigs.flatMap ignoredSteps ++ (forLoop false rest).trace,
       (forLoop false rest).ended, (forLoop false rest).pending⟩ := by
  induction sigs with
  | nil => simp
  | cons s sigs ih =>
    have hs := h s (List.mem_cons_self _ _)
    have ih1 := ih (fun x hx => h x (List.mem_cons_of_mem _ hx))
    simp [forLoop, selectBody, hs.1, hs.2, ih1, ignoredSteps]

theorem forLoop_ending (e : Event) (post : List Event) (h : e.isTerminating = true) :
    forLoop false (e :: post) = ⟨endingSteps e, true, post⟩ := by
  cases e with
  | done => simp [forLoop, selectBody, endingSteps]
  | signal s =>
    have hs : ¬ (s ≠ osKill ∧ s ≠ osInterrupt) := by
      simp only [Event.isTerminating, Bool.or_eq_true, beq_iff_eq] at h
      rcases h with h | h <;> simp [h]
    simp [forLoop, selectBody, endingSteps, hs]

/-! ## The shape of an execution that starts the services -/

theorem gungnir_started (env : Env) (h : env.startsServices = true) :
    gungnir env =
      ⟨(gungnir { env with events := [] }).trace ++ (forLoop false env.events).trace ++
          (if (forLoop false env.events).ended then [Action.closeShutdown, Action.waitGroupWait]
           else []),
       if (forLoop false env.events).ended && env.waitReturns then some 0 else none,
       (forLoop false env.events).pending⟩ := by
  obtain ⟨initErr, parseErr, printVer, config, mk, executeErr, events, waitReturns⟩ := env
  simp only [Env.startsServices, Bool.and_eq_true, Option.isNone_iff_eq_none,
    Bool.not_eq_true'] at h
  obtain ⟨⟨⟨⟨hp, hv⟩, hi⟩, hd⟩, hx⟩ := h
  subst hp hv hi hx
  cases hdb : mk config.Db with
  | error e => simp [hdb] at hd
  | ok d =>
    cases hl : (forLoop false events).ended <;> cases waitReturns <;>
      simp [gungnir, hdb, hl, forLoop]

theorem started_prefix_not_serving_close (env : Env) :
    Action.closeShutdown ∉ (gungnir { env with events := [] }).trace ∧
    Action.waitGroupWait ∉ (gungnir { env with events := [] }).trace := by
  obtain ⟨initErr, parseErr, printVer, config, mk, executeErr, events, waitReturns⟩ := env
  cases parseErr <;> cases printVer <;> cases initErr <;> cases hdb : mk config.Db <;>
    cases executeErr <;> simp [gungnir, hdb, forLoop]


/-! ## The paths through gungnir -/

theorem route_path : apiBase ++ "/device/\x7bdeviceID\x7d" = "/api/v1/device/\x7bdeviceID\x7d" := by
  decide

theorem gungnir_paths (env : Env) :
    (∃ e, env.parseErr = some e ∧
      gungnir env = ⟨[Action.serverInitialize, Action.flagParse,
        Action.stderr (StderrMsg.failedToParseArguments e)], some 1, env.events⟩) ∨
    (env.parseErr = none ∧ env.printVer = true ∧
      gungnir env = ⟨[Action.serverInitialize, Action.flagParse,
        Action.println applicationVersion], some 0, env.events⟩) ∨
    (∃ e, env.parseErr = none ∧ env.printVer = false ∧ env.initErr = some e ∧
      gungnir env = ⟨[Action.serverInitialize, Action.flagParse,
        Action.stderr (StderrMsg.unableToInitializeViper e)], some 1, env.events⟩) ∨
    (∃ e, env.parseErr = none ∧ env.printVer = false ∧ env.initErr = none ∧
      env.CreateDbConnection env.config.Db = Except.error e ∧
      gungnir env = ⟨[Action.serverInitialize, Action.flagParse,
        Action.logInfo LogMsg.loadedConfigFile, Action.unmarshal,
        Action.createDbConnection env.config.Db,
        Action.logError (LogMsg.failedToInitializeDatabase e),
        Action.stderr (StderrMsg.databaseInitializeFailed e)], some 2, env.events⟩) ∨
    (∃ d e, env.parseErr = none ∧ env.printVer = false ∧ env.initErr = none ∧
      env.CreateDbConnection env.config.Db = Except.ok d ∧ env.executeErr = some e ∧
      gungnir env = ⟨startSteps env.config d ++
        [Action.stderr (StderrMsg.unableToStartDeviceManager e)], some 1, env.events⟩) ∨
    (∃ d, env.parseErr = none ∧ env.printVer = false ∧ env.initErr = none ∧
      env.CreateDbConnection env.config.Db = Except.ok d ∧ env.executeErr = none ∧
      gungnir env = ⟨startSteps env.config d ++
          [Action.logInfo LogMsg.upAndRunning, Action.signalNotify] ++
          (forLoop false env.events).trace ++
          (if (forLoop false env.events).ended then [Action.closeShutdown, Action.waitGroupWait]
           else []),
        if (forLoop false env.events).ended && env.waitReturns then some 0 else none,
        (forLoop false env.events).pending⟩) := by
  obtain ⟨initErr, parseErr, printVer, config, mk, executeErr, events, waitReturns⟩ := env
  cases parseErr with
  | some e => left; exact ⟨e, rfl, rfl⟩
  | none =>
    right
    cases printVer with
    | true => left; exact ⟨rfl, rfl, rfl⟩
    | false =>
      right
      cases initErr with
      | some e => left; exact ⟨e, rfl, rfl, rfl, rfl⟩
      | none =>
        right
        cases hdb : mk config.Db with
        | error e =>
          left
          refine ⟨e, rfl, rfl, rfl, hdb, ?_⟩
          simp [gungnir, hdb]
        | ok d =>
          right
          cases executeErr with
          | some e =>
            left
            refine ⟨d, e, rfl, rfl, rfl, hdb, rfl, ?_⟩
            simp [gungnir, hdb, startSteps, route_path]
          | none =>
            right
            refine ⟨d, rfl, rfl, rfl, hdb, rfl, ?_⟩
            cases hx : (forLoop false events).ended <;> cases waitReturns <;>
              simp [gungnir, hdb, startSteps, route_path, hx]


theorem loop_trace_count_close (b : Bool) (events : List Event) :
    (forLoop b events).trace.count Action.closeShutdown = 0 := by
  rw [List.count_eq_zero]
  intro hmem
  have := forLoop_steps_loop b events _ hmem
  simp [Action.isLoopStep] at this

theorem not_started_not_serving (env : Env) (h : env.startsServices = false) :
    (∃ c, (gungnir env).exit = some c) ∧ (gungnir env).pending = env.events ∧
    Action.signalNotify ∉ (gungnir env).trace ∧ Action.closeShutdown ∉ (gungnir env).trace ∧
    Action.waitGroupWait ∉ (gungnir env).trace ∧ ∀ e, Action.recv e ∉ (gungnir env).trace := by
  obtain ⟨initErr, parseErr, printVer, config, mk, executeErr, events, waitReturns⟩ := env
  cases parseErr <;> cases printVer <;> cases initErr <;> cases hdb : mk config.Db <;>
    cases executeErr <;> simp [gungnir, hdb, Env.startsServices] at h ⊢

/-- C1: while gungnir is in its Running loop, signals other than os.Interrupt and
os.Kill are received, logged and nothing else: after any run of such signals the
function has not returned and the shutdown channel is not closed.  The first
event that is os.Interrupt, os.Kill or the done notification ends the loop, and
the events behind it are never received. -/
theorem running_loop_ignores_other_signals (env : Env) (sigs : List Signal) (e : Event)
    (post : List Event) (hrun : env.startsServices = true)
    (hsigs : ∀ s ∈ sigs, s ≠ osInterrupt ∧ s ≠ osKill)
    (he : e = Event.done ∨ e = Event.signal osInterrupt ∨ e = Event.signal osKill) :
    gungnir { env with events := sigs.map Event.signal } =
        ⟨(gungnir { env with events := [] }).trace ++ sigs.flatMap ignoredSteps, none, []⟩ ∧
    Action.closeShutdown ∉ (gungnir { env with events := sigs.map Event.signal }).trace ∧
    gungnir { env with events := sigs.map Event.signal ++ e :: post } =
        ⟨(gungnir { env with events := [] }).trace ++ sigs.flatMap ignoredSteps ++
            endingSteps e ++ [Action.closeShutdown, Action.waitGroupWait],
         if env.waitReturns then some 0 else none, post⟩ := by
  have hterm : e.isTerminating = true := by
    rcases he with h | h | h <;> subst h <;> rfl
  have h1 := forLoop_ignored sigs [] hsigs
  have h2 := forLoop_ignored sigs (e :: post) hsigs
  rw [forLoop_ending e post hterm] at h2
  simp only [List.append_nil, forLoop] at h1
  have hfst : gungnir { env with events := sigs.map Event.signal } =
      ⟨(gungnir { env with events := [] }).trace ++ sigs.flatMap ignoredSteps, none, []⟩ := by
    have := gungnir_started { env with events := sigs.map Event.signal } hrun
    simpa [h1] using this
  refine ⟨hfst, ?_, ?_⟩
  · rw [hfst]
    have hp := (started_prefix_not_serving_close env).1
    simp only [List.mem_append, not_or]
    refine ⟨hp, ?_⟩
    simp [List.mem_flatMap, ignoredSteps]
  · have := gungnir_started { env with events := sigs.map Event.signal ++ e :: post } hrun
    simpa [h2] using this

/-- C1 at a concrete input: SIGHUP and SIGTERM are ignored, SIGINT ends the
loop and the done notification behind it stays unreceived. -/
theorem running_loop_ignores_other_signals_witness :
    (envUp []).startsServices = true ∧
    gungnir { envUp [] with events := [1, 15].map Event.signal } =
        ⟨(gungnir { envUp [] with events := [] }).trace ++ [1, 15].flatMap ignoredSteps,
         none, []⟩ ∧
    Action.closeShutdown ∉ (gungnir { envUp [] with events := [1, 15].map Event.signal }).trace ∧
    gungnir { envUp [] with
        events := [1, 15].map Event.signal ++ Event.signal osInterrupt :: [Event.done] } =
        ⟨(gungnir { envUp [] with events := [] }).trace ++ [1, 15].flatMap ignoredSteps ++
            endingSteps (Event.signal osInterrupt) ++
            [Action.closeShutdown, Action.waitGroupWait],
         if (envUp []).waitReturns then some 0 else none, [Event.done]⟩ :=
  ⟨rfl, running_loop_ignores_other_signals (envUp []) [1, 15] (Event.signal osInterrupt)
    [Event.done] rfl (by decide) (Or.inr (Or.inl rfl))⟩

/-- The predicate `startsServices` describes the executions that reach
`signal.Notify`. -/
theorem starts_iff_notify (env : Env) :
    env.startsServices = true ↔ Action.signalNotify ∈ (gungnir env).trace := by
  constructor
  · intro h
    rw [gungnir_started env h]
    obtain ⟨d, _, _, _, _, _, hg⟩ : ∃ d, env.parseErr = none ∧ env.printVer = false ∧
        env.initErr = none ∧ env.CreateDbConnection env.config.Db = Except.ok d ∧
        env.executeErr = none ∧ (gungnir { env with events := [] }).trace =
          startSteps env.config d ++ [Action.logInfo LogMsg.upAndRunning, Action.signalNotify] := by
      rcases gungnir_paths { env with events := [] } with ⟨e, hp, _⟩ | ⟨_, hv, _⟩ |
        ⟨e, _, _, hi, _⟩ | ⟨e, _, _, _, hd, _⟩ | ⟨d, e, _, _, _, _, hx, _⟩ |
        ⟨d, hp, hv, hi, hd, hx, hg⟩
      · simp [Env.startsServices, show env.parseErr = some e from hp] at h
      · simp [Env.startsServices, show env.printVer = true from hv] at h
      · simp [Env.startsServices, show env.initErr = some e from hi] at h
      · simp [Env.startsServices, show env.CreateDbConnection env.config.Db = _ from hd] at h
      · simp [Env.startsServices, show env.executeErr = some e from hx] at h
      · exact ⟨d, hp, hv, hi, hd, hx, by rw [hg]; simp [forLoop]⟩
    rw [hg]
    simp
  · intro h
    cases hs : env.startsServices with
    | true => rfl
    | false => exact absurd h (not_started_not_serving env hs).2.2.1

/-- C2: the shutdown channel is closed once when the services were started and
the Running loop ended, whatever was delivered before or is still queued behind
the event that ended it, and not at all in every other execution; in particular
never on a path that returns before the services are started. -/
theorem shutdown_closed_at_most_once (env : Env) :
    (gungnir env).trace.count Action.closeShutdown =
      if env.startsServices && env.events.any Event.isTerminating then 1 else 0 := by
  cases hs : env.startsServices with
  | false =>
    have := (not_started_not_serving env hs).2.2.2.1
    simpa using List.count_eq_zero.mpr this
  | true =>
    rw [gungnir_started env hs]
    have hp := List.count_eq_zero.mpr (started_prefix_not_serving_close env).1
    simp only [List.count_append, hp, loop_trace_count_close, forLoop_ended, Bool.true_and]
    cases env.events.any Event.isTerminating <;> simp

/-- C6: when the services were started and an event ends the Running loop, the
last two steps of gungnir are closing the shutdown channel and then waiting on
the wait group, neither happens earlier, and the value returned once the wait
is over is 0. -/
theorem shutdown_closes_then_waits_then_returns_zero (env : Env)
    (hrun : env.startsServices = true)
    (hend : env.events.any Event.isTerminating = true) :
    ∃ before, (gungnir env).trace = before ++ [Action.closeShutdown, Action.waitGroupWait] ∧
      Action.closeShutdown ∉ before ∧ Action.waitGroupWait ∉ before ∧
      (gungnir env).exit = if env.waitReturns then some 0 else none := by
  refine ⟨(gungnir { env with events := [] }).trace ++ (forLoop false env.events).trace, ?_⟩
  have hp := started_prefix_not_serving_close env
  have hl := forLoop_steps_loop false env.events
  rw [gungnir_started env hrun, forLoop_ended, hend]
  refine ⟨by simp, ?_, ?_, by simp⟩
  · simp only [List.mem_append, not_or]
    exact ⟨hp.1, fun hm => by simpa [Action.isLoopStep] using hl _ hm⟩
  · simp only [List.mem_append, not_or]
    exact ⟨hp.2, fun hm => by simpa [Action.isLoopStep] using hl _ hm⟩

/-- C6 at a concrete input: SIGHUP is ignored, SIGKILL ends the loop. -/
theorem shutdown_closes_then_waits_then_returns_zero_witness :
    ∃ before, (gungnir (envUp [Event.signal 1, Event.signal osKill])).trace =
        before ++ [Action.closeShutdown, Action.waitGroupWait] ∧
      Action.closeShutdown ∉ before ∧ Action.waitGroupWait ∉ before ∧
      (gungnir (envUp [Event.signal 1, Event.signal osKill])).exit =
        if (envUp [Event.signal 1, Event.signal osKill]).waitReturns then some 0 else none :=
  shutdown_closes_then_waits_then_returns_zero (envUp [Event.signal 1, Event.signal osKill])
    rfl rfl


theorem loop_trace_any_false (f : Action → Bool) (hf : ∀ a, a.isLoopStep = true → f a = false)
    (b : Bool) (events : List Event) : (forLoop b events).trace.any f = false := by
  rw [List.any_eq_false]
  intro a ha
  simp [hf a (forLoop_steps_loop b events a ha)]

theorem loop_trace_filter_nil (f : Action → Bool) (hf : ∀ a, a.isLoopStep = true → f a = false)
    (b : Bool) (events : List Event) : (forLoop b events).trace.filter f = [] := by
  rw [List.filter_eq_nil_iff]
  intro a ha
  simp [hf a (forLoop_steps_loop b events a ha)]

theorem loop_trace_not_mem (a : Action) (ha : a.isLoopStep = false) (b : Bool)
    (events : List Event) : a ∉ (forLoop b events).trace := by
  intro hm
  simp [forLoop_steps_loop b events a hm] at ha

/-- C3: the value gungnir returns is 1 when the arguments do not parse, 0 for a
version query, 1 when initialization reported an error, 2 when the database
connection fails, 1 when the services do not start, and 0 when the Running loop
ends and the wait is over; otherwise gungnir does not return.  No value other
than 0, 1 and 2 is returned. -/
theorem exit_code_by_first_failing_stage (env : Env) :
    (gungnir env).exit =
      (if env.parseErr.isSome then some 1
       else if env.printVer then some 0
       else if env.initErr.isSome then some 1
       else match env.CreateDbConnection env.config.Db with
        | Except.error _ => some 2
        | Except.ok _ =>
          if env.executeErr.isSome then some 1
          else if env.events.any Event.isTerminating && env.waitReturns then some 0
          else none) ∧
    ∀ c, (gungnir env).exit = some c → c = 0 ∨ c = 1 ∨ c = 2 := by
  obtain ⟨initErr, parseErr, printVer, config, mk, executeErr, events, waitReturns⟩ := env
  cases parseErr <;> cases printVer <;> cases initErr <;> cases hdb : mk config.Db <;>
    cases executeErr <;>
    cases hl : events.any Event.isTerminating <;> cases waitReturns <;>
    simp [gungnir, hdb, forLoop_ended, hl]

/-- C5: when the arguments parse and the version flag is set, gungnir calls
server.Initialize, parses the arguments, prints applicationVersion and returns
0; it does nothing else, whatever server.Initialize returned. -/
theorem version_query_prints_and_returns_zero (env : Env) (hparse : env.parseErr = none)
    (hver : env.printVer = true) :
    gungnir env =
      ⟨[Action.serverInitialize, Action.flagParse, Action.println applicationVersion],
       some 0, env.events⟩ := by
  simp [gungnir, hparse, hver]

/-- C5 at a concrete input: a version query for which server.Initialize
reported an error. -/
theorem version_query_prints_and_returns_zero_witness :
    envVersion.initErr = some ⟨13⟩ ∧
    gungnir envVersion =
      ⟨[Action.serverInitialize, Action.flagParse, Action.println applicationVersion],
       some 0, envVersion.events⟩ :=
  ⟨rfl, version_query_prints_and_returns_zero envVersion rfl rfl⟩

/-- C10: no execution of gungnir writes the validator error: the branch that
prints it tests the error of server.Initialize a second time, after the first
test has already returned for every error. -/
theorem validator_error_branch_unreachable (env : Env) (e : GoError) :
    Action.stderr (StderrMsg.validatorError e) ∉ (gungnir env).trace := by
  have hl := loop_trace_not_mem (Action.stderr (StderrMsg.validatorError e)) rfl false env.events
  obtain ⟨initErr, parseErr, printVer, config, mk, executeErr, events, waitReturns⟩ := env
  cases parseErr <;> cases printVer <;> cases initErr <;> cases hdb : mk config.Db <;>
    cases executeErr <;>
    cases hx : (forLoop false events).ended <;> cases waitReturns <;>
    simp [gungnir, hdb, hx] <;> exact hl


/-- C4, as amended: a reported startup failure makes gungnir return a non-zero
value that depends on the stage only through the database: 2 for a failed
database connection and 1 for every other stage. -/
theorem startup_failure_exit_codes (env : Env) (st : Stage)
    (h : (gungnir env).failedAt st = true) :
    (gungnir env).exit = some (if st = Stage.databaseConnect then 2 else 1) ∧
    (gungnir env).exit ≠ some 0 := by
  have hl := loop_trace_any_false
    (fun a => match a with
      | Action.stderr m => decide (m.stage = st)
      | _ => false)
    (by intro a ha; cases a <;> simp_all [Action.isLoopStep]) false env.events
  rcases gungnir_paths env with ⟨e, _, hg⟩ | ⟨_, _, hg⟩ | ⟨e, _, _, _, hg⟩ | ⟨e, _, _, _, _, hg⟩ |
    ⟨d, e, _, _, _, _, _, hg⟩ | ⟨d, _, _, _, _, _, hg⟩
  · rw [hg] at h ⊢
    simp [Outcome.failedAt, StderrMsg.stage] at h
    subst h
    simp
  · rw [hg] at h
    simp [Outcome.failedAt] at h
  · rw [hg] at h ⊢
    simp [Outcome.failedAt, StderrMsg.stage] at h
    subst h
    simp
  · rw [hg] at h ⊢
    simp [Outcome.failedAt, StderrMsg.stage] at h
    subst h
    simp
  · rw [hg] at h ⊢
    simp [Outcome.failedAt, StderrMsg.stage, startSteps] at h
    subst h
    simp
  · rw [hg] at h
    simp only [Outcome.failedAt, List.any_append, hl, Bool.or_false] at h
    cases hx : (forLoop false env.events).ended <;> simp [hx, startSteps] at h

/-- C4 at a concrete input: a refused database connection returns 2. -/
theorem startup_failure_exit_codes_witness :
    (gungnir envDbFails).failedAt Stage.databaseConnect = true ∧
    (gungnir envDbFails).exit =
      some (if Stage.databaseConnect = Stage.databaseConnect then 2 else 1) ∧
    (gungnir envDbFails).exit ≠ some 0 :=
  ⟨rfl, startup_failure_exit_codes envDbFails Stage.databaseConnect rfl⟩

/-- C4 refuted as stated: a configuration that cannot be loaded and services
that cannot be started are different stages, and gungnir returns 1 for both. -/
theorem exit_codes_not_distinct_per_stage :
    (gungnir envInitFails).failedAt Stage.configLoad = true ∧
    (gungnir envExecuteFails).failedAt Stage.serviceStart = true ∧
    Stage.configLoad ≠ Stage.serviceStart ∧
    (gungnir envInitFails).exit = some 1 ∧
    (gungnir envExecuteFails).exit = some 1 := by
  refine ⟨rfl, rfl, by decide, rfl, rfl⟩

/-- C7: when the arguments do not parse, initialization reported an error or the
database connection fails, gungnir returns with all events unreceived and
without any step of a started server (no retry accessor, no route, no
concurrent.Execute, no signal subscription, no receive).  In every execution
server.Initialize, db.CreateDbConnection and concurrent.Execute are each called
at most once. -/
theorem startup_failure_not_retried (env : Env) :
    ((env.parseErr ≠ none ∨ env.initErr ≠ none ∨
        (∃ e, env.CreateDbConnection env.config.Db = Except.error e)) →
      (∃ c, (gungnir env).exit = some c) ∧ (gungnir env).pending = env.events ∧
      ∀ a ∈ (gungnir env).trace, a.isServing = false) ∧
    (gungnir env).trace.count Action.serverInitialize ≤ 1 ∧
    (gungnir env).trace.countP Action.isCreateDbConnection ≤ 1 ∧
    (gungnir env).trace.count Action.concurrentExecute ≤ 1 := by
  have h1 := loop_trace_not_mem Action.serverInitialize rfl false env.events
  have h2 := loop_trace_not_mem Action.concurrentExecute rfl false env.events
  have h3 : (forLoop false env.events).trace.countP Action.isCreateDbConnection = 0 := by
    rw [List.countP_eq_zero]
    intro a ha
    have := forLoop_steps_loop false env.events a ha
    cases a <;> simp_all [Action.isLoopStep, Action.isCreateDbConnection]
  rw [← List.count_eq_zero] at h1 h2
  rcases gungnir_paths env with ⟨e, hp, hg⟩ | ⟨hp, hv, hg⟩ | ⟨e, hp, hv, hi, hg⟩ |
    ⟨e, hp, hv, hi, hd, hg⟩ | ⟨d, e, hp, hv, hi, hd, hx, hg⟩ | ⟨d, hp, hv, hi, hd, hx, hg⟩
  · rw [hg]
    simp [Action.isServing, Action.isCreateDbConnection, List.count_cons, List.countP_cons]
  · rw [hg]
    simp [Action.isServing, Action.isCreateDbConnection, List.count_cons, List.countP_cons]
  · rw [hg]
    simp [Action.isServing, Action.isCreateDbConnection, List.count_cons, List.countP_cons]
  · rw [hg]
    simp [Action.isServing, Action.isCreateDbConnection, List.count_cons, List.countP_cons]
  · rw [hg]
    simp [hp, hi, hd, startSteps, Action.isCreateDbConnection, List.count_cons,
      List.countP_cons]
  · rw [hg]
    simp only [List.count_append, List.countP_append, h1, h2, h3]
    cases (forLoop false env.events).ended <;>
      simp [hp, hi, hd, startSteps, Action.isCreateDbConnection, List.count_cons,
        List.countP_cons]

/-- C7 at a concrete input: the database refuses the connection while a signal
and the done notification are already queued. -/
theorem startup_failure_not_retried_witness :
    ((∃ c, (gungnir envDbFails).exit = some c) ∧
      (gungnir envDbFails).pending = envDbFails.events ∧
      ∀ a ∈ (gungnir envDbFails).trace, a.isServing = false) ∧
    (gungnir envDbFails).trace.count Action.serverInitialize ≤ 1 ∧
    (gungnir envDbFails).trace.countP Action.isCreateDbConnection ≤ 1 ∧
    (gungnir envDbFails).trace.count Action.concurrentExecute ≤ 1 :=
  ⟨(startup_failure_not_retried envDbFails).1 (Or.inr (Or.inr ⟨⟨53⟩, rfl⟩)),
   (startup_failure_not_retried envDbFails).2⟩

/-- C9: in every execution that gets a database connection, the accessor steps
are exactly these three, in this order: the history accessor and the tombstone
accessor are both built from that one connection, config.GetRetries and
config.RetryInterval, and the App holding these two accessors is registered
for the path /api/v1/device/ followed by the deviceID variable. -/
theorem accessors_built_alike (env : Env) (d : Database) (hparse : env.parseErr = none)
    (hver : env.printVer = false) (hinit : env.initErr = none)
    (hdb : env.CreateDbConnection env.config.Db = Except.ok d) :
    (gungnir env).trace.filter Action.isAccessorStep =
      [Action.createRetryHGService d env.config.GetRetries env.config.RetryInterval,
       Action.createRetryTGService d env.config.GetRetries env.config.RetryInterval,
       Action.routerHandle "/api/v1/device/\x7bdeviceID\x7d"
         ⟨Getter.retryHG d env.config.GetRetries env.config.RetryInterval,
          Getter.retryTG d env.config.GetRetries env.config.RetryInterval⟩] := by
  have hl := loop_trace_filter_nil Action.isAccessorStep
    (by intro a ha; cases a <;> simp_all [Action.isLoopStep, Action.isAccessorStep])
    false env.events
  rcases gungnir_paths env with ⟨e, hp, hg⟩ | ⟨hp, hv, hg⟩ | ⟨e, hp, hv, hi, hg⟩ |
    ⟨e, hp, hv, hi, hd, hg⟩ | ⟨d', e, hp, hv, hi, hd, hx, hg⟩ | ⟨d', hp, hv, hi, hd, hx, hg⟩
  · simp [hparse] at hp
  · simp [hver] at hv
  · simp [hinit] at hi
  · simp [hdb] at hd
  · rw [hdb] at hd
    cases hd
    rw [hg]
    simp [startSteps, Action.isAccessorStep, List.filter_cons]
  · rw [hdb] at hd
    cases hd
    rw [hg]
    simp only [List.filter_append, hl]
    cases (forLoop false env.events).ended <;>
      simp [startSteps, Action.isAccessorStep, List.filter_cons]

/-- C9 at a concrete input: the sample configuration, with the services up. -/
theorem accessors_built_alike_witness :
    (gungnir (envUp [Event.done])).trace.filter Action.isAccessorStep =
      [Action.createRetryHGService ⟨7⟩ (envUp [Event.done]).config.GetRetries
         (envUp [Event.done]).config.RetryInterval,
       Action.createRetryTGService ⟨7⟩ (envUp [Event.done]).config.GetRetries
         (envUp [Event.done]).config.RetryInterval,
       Action.routerHandle "/api/v1/device/\x7bdeviceID\x7d"
         ⟨Getter.retryHG ⟨7⟩ (envUp [Event.done]).config.GetRetries
            (envUp [Event.done]).config.RetryInterval,
          Getter.retryTG ⟨7⟩ (envUp [Event.done]).config.GetRetries
            (envUp [Event.done]).config.RetryInterval⟩] :=
  accessors_built_alike (envUp [Event.done]) ⟨7⟩ rfl rfl rfl rfl


/-! ## The retry-wrapped accessor -/

theorem retryFrom_exhausted (t : GoError → Bool) (i : Nat)
    (source : Nat → Except GoError (List Record)) (left made waited : Nat)
    (h : ∀ k, made ≤ k → k ≤ made + left → ∃ e, source k = Except.error e ∧ t e = true) :
    ∃ cause, source (made + left) = Except.error cause ∧
      (retryFrom t i source left made waited).result =
        Except.error (GetError.exhausted cause (made + left + 1)) ∧
      (retryFrom t i source left made waited).calls = made + left + 1 ∧
      (retryFrom t i source left made waited).waited = waited + left * i := by
  induction left generalizing made waited with
  | zero =>
    obtain ⟨e, he, hte⟩ := h made (le_refl _) (by omega)
    refine ⟨e, by simpa using he, ?_⟩
    unfold retryFrom
    simp [he, hte]
  | succ n ih =>
    obtain ⟨e, he, hte⟩ := h made (le_refl _) (by omega)
    obtain ⟨cause, hc, hr, hcalls, hw⟩ := ih (made + 1) (waited + i)
      (fun k hk1 hk2 => h k (by omega) (by omega))
    have hidx : made + 1 + n = made + (n + 1) := by omega
    rw [hidx] at hc hr hcalls
    refine ⟨cause, hc, ?_⟩
    unfold retryFrom
    simp only [he, hte, if_true]
    refine ⟨hr, hcalls, ?_⟩
    rw [hw]
    ring

/-- The situation of C8 arises: for an accepted device identifier and a source
whose first maxAttempts + 1 calls fail with a transient error, Get makes
maxAttempts + 1 calls, all of them failed, waits maxAttempts intervals and
returns the wrapped error with the last cause and the number of attempts. -/
theorem get_exhausts_on_transient_failures (g : RetryGetter) (deviceID : String)
    (source : Nat → Except GoError (List Record)) (hid : deviceID ≠ "")
    (hwf : g.wellFormed deviceID = true)
    (hfail : ∀ k, k ≤ g.policy.maxAttempts → failedTransiently g (source k) = true) :
    (g.Get deviceID source).calls = g.policy.maxAttempts + 1 ∧
    (g.Get deviceID source).failedCalls source = g.policy.maxAttempts + 1 ∧
    (g.Get deviceID source).waited = g.policy.maxAttempts * g.policy.interval ∧
    ∃ cause, source g.policy.maxAttempts = Except.error cause ∧
      (g.Get deviceID source).result =
        Except.error (GetError.exhausted cause (g.policy.maxAttempts + 1)) := by
  have hcond : ¬ (deviceID = "" ∨ g.wellFormed deviceID = false) := by simp [hid, hwf]
  obtain ⟨cause, hc, hr, hcalls, hw⟩ :=
    retryFrom_exhausted g.isTransient g.policy.interval source g.policy.maxAttempts 0 0
      (fun k _ hk => by
        have hk1 := hfail k (by omega)
        cases hs : source k with
        | ok r => simp [hs, failedTransiently] at hk1
        | error e => exact ⟨e, rfl, by simpa [hs, failedTransiently] using hk1⟩)
  simp only [Nat.zero_add] at hc hr hcalls hw
  have hget : g.Get deviceID source =
      retryFrom g.isTransient g.policy.interval source g.policy.maxAttempts 0 0 := by
    unfold RetryGetter.Get
    rw [if_neg hcond]
  rw [hget]
  refine ⟨hcalls, ?_, hw, cause, hc, hr⟩
  unfold GetOutcome.failedCalls
  rw [hcalls, List.countP_eq_length.mpr, List.length_range]
  intro k hk
  have hk1 := hfail k (by have := List.mem_range.mp hk; omega)
  cases hs : source k with
  | ok r => simp [hs, failedTransiently] at hk1
  | error e => simp [failed]

end Gungnir
